import Mathlib

/-!
# Space Weather Visualizer — verification of the data pipeline

Shallow embedding of the core logic of `app.py` (a Streamlit dashboard over
NASA's DONKI API): query-parameter construction (`fetch_space_weather`),
date-field resolution, the per-event plotting branches (grouping by date with
a count or a mean reduction), and the top-level control flow of the script
(date-range validation, the Fetch Data handler, and the truthiness checks on
the fetched JSON).

External collaborators (Streamlit rendering, the HTTP transport, Plotly) are
modelled only through their observable effects: emitted messages, whether the
network call is performed, and the chart specification handed to the renderer.
-/

namespace SpaceWeather

/-- A calendar date, as produced by `datetime.date` /
`pd.to_datetime(...).dt.date` in `app.py`. -/
structure Date where
  year : Nat
  month : Nat
  day : Nat
deriving DecidableEq, Repr

/-- Strict lexicographic order on dates (year, then month, then day); this is
how both Python `datetime.date` comparison and the pandas groupby sort order
compare calendar dates. -/
def Date.ltB (a b : Date) : Bool :=
  Nat.blt a.year b.year ||
    (a.year == b.year &&
      (Nat.blt a.month b.month ||
        (a.month == b.month && Nat.blt a.day b.day)))

/-- Zero-pad a numeral to two digits, as `strftime` does for `%m` and `%d`. -/
def pad2 (n : Nat) : String :=
  if n < 10 then "0" ++ toString n else toString n

/-- Zero-pad a numeral to four digits, as `strftime` does for `%Y`. -/
def pad4 (n : Nat) : String :=
  if n < 10 then "000" ++ toString n
  else if n < 100 then "00" ++ toString n
  else if n < 1000 then "0" ++ toString n
  else toString n

/-- `d.strftime("%Y-%m-%d")` from `fetch_space_weather` (app.py lines 136-137):
an ISO 8601 calendar date with no time component. -/
def Date.strftimeYMD (d : Date) : String :=
  pad4 d.year ++ "-" ++ pad2 d.month ++ "-" ++ pad2 d.day

/-- A query-parameter value: the `params` dict of `fetch_space_weather` mixes
strings (dates, key, flags) and numbers (`speed`, `halfAngle`). -/
inductive PVal where
  | str : String → PVal
  | num : Nat → PVal
deriving DecidableEq, Repr

/-- The query-parameter set built by `fetch_space_weather` (app.py lines
133-153), in Python dict insertion order: the base parameters `startDate`,
`endDate`, `api_key`, then the CME-specific or notifications-specific extras
added by `params.update`. -/
def fetchParams (event : String) (start stop : Date) (key : String) :
    List (String × PVal) :=
  let base := [("startDate", PVal.str start.strftimeYMD),
               ("endDate", PVal.str stop.strftimeYMD),
               ("api_key", PVal.str key)]
  if event = "CME" then
    base ++ [("mostAccurateOnly", PVal.str "true"),
             ("completeEntryOnly", PVal.str "true"),
             ("speed", PVal.num 500),
             ("halfAngle", PVal.num 30),
             ("catalog", PVal.str "ALL")]
  else if event = "notifications" then
    base ++ [("type", PVal.str "all")]
  else
    base

/-- One element of a GST record's nested `allKpIndex` list: the fields the GST
branch reads after `pd.json_normalize` (app.py lines 246-248). -/
structure KpReading where
  observedTime : String
  kpIndex : ℚ
deriving DecidableEq, Repr

/-- One upstream JSON record after the `pd.json_normalize(data)` flattening
(app.py line 180): scalar columns as string cells, plus the `allKpIndex`
column (a list-valued cell) when the record carries it. -/
structure RawRecord where
  fields : List (String × String)
  allKpIndex : Option (List KpReading) := none
deriving DecidableEq, Repr

/-- The column names contributed by one record. -/
def recordKeys (r : RawRecord) : List String :=
  r.fields.map Prod.fst ++ (if r.allKpIndex.isSome then ["allKpIndex"] else [])

/-- Keep the first occurrence of each element, preserving order — the column
order `pd.json_normalize` produces (first appearance across records). -/
def dedupFirst : List String → List String
  | [] => []
  | x :: xs => x :: (dedupFirst xs).filter (fun y => y ≠ x)

/-- `df.columns` after `pd.json_normalize(data)`: union of the records' keys
in order of first appearance. -/
def columns (records : List RawRecord) : List String :=
  dedupFirst (records.map recordKeys).flatten

/-- Split a character list at every occurrence of a separator character. -/
def splitChar (sep : Char) : List Char → List (List Char)
  | [] => [[]]
  | c :: cs =>
    if c == sep then [] :: splitChar sep cs
    else
      match splitChar sep cs with
      | [] => [[c]]
      | g :: gs => (c :: g) :: gs

/-- The numeral denoted by a digit string. -/
def digitsVal (cs : List Char) : Nat :=
  cs.foldl (fun a c => a * 10 + (c.toNat - 48)) 0

/-- Parse a non-empty all-digit character list as a numeral (`int(...)` on a
decimal field). -/
def charsToNat? (cs : List Char) : Option Nat :=
  if !cs.isEmpty && cs.all (fun c => c.isDigit) then some (digitsVal cs)
  else none

/-- Models `pd.to_datetime(s, errors = 'coerce').dt.date` on the ISO-8601
timestamp strings DONKI returns (e.g. `2024-03-01T12:00Z`): take the calendar
part before any time component, read it as year-month-day, and range-check
month and day; anything that does not parse is coerced to `NaT`, i.e.
`none`. -/
def parseDate (s : String) : Option Date :=
  let datePart := s.data.takeWhile (fun c => c != 'T' && c != ' ')
  match splitChar '-' datePart with
  | [y, m, d] =>
    match charsToNat? y, charsToNat? m, charsToNat? d with
    | some yn, some mn, some dn =>
      if 1 ≤ mn && mn ≤ 12 && 1 ≤ dn && dn ≤ 31 then
        some ⟨yn, mn, dn⟩
      else none
    | _, _, _ => none
  | _ => none

/-- Does the first list occur as a prefix of the second? -/
def prefixMatch : List Char → List Char → Bool
  | [], _ => true
  | _ :: _, [] => false
  | a :: as, b :: bs => a == b && prefixMatch as bs

/-- Does the first list occur contiguously anywhere in the second? -/
def hasSubstr (sub : List Char) : List Char → Bool
  | [] => sub.isEmpty
  | c :: rest => prefixMatch sub (c :: rest) || hasSubstr sub rest

/-- Python's `sub in s` substring test. -/
def strContains (s sub : String) : Bool :=
  hasSubstr sub.data s.data

/-- ASCII lower-casing of one character (`str.lower` on the ASCII column
names at hand). -/
def lowerChar (c : Char) : Char :=
  if c.isUpper then Char.ofNat (c.toNat + 32) else c

/-- `str.lower`. -/
def lowerStr (s : String) : String :=
  String.mk (s.data.map lowerChar)

/-- The predicate of the dynamic fallback scan (app.py line 218):
`'date' in col.lower() or 'time' in col.lower()`. -/
def isDateLike (col : String) : Bool :=
  strContains (lowerStr col) "date" || strContains (lowerStr col) "time"

/-- `date_field_mapping.get(api_endpoint, None)` (app.py lines 183-193,
212). -/
def date_field_mapping (event : String) : Option String :=
  if event = "CME" then some "startTime"
  else if event = "GST" then some "startTime"
  else if event = "FLR" then some "beginTime"
  else if event = "SEP" then some "eventTime"
  else if event = "IPS" then some "eventTime"
  else if event = "RBE" then some "eventTime"
  else if event = "MPC" then some "eventTime"
  else if event = "HSS" then some "eventTime"
  else if event = "notifications" then some "messageIssueTime"
  else none

/-- The `y_label_mapping` dict (app.py lines 196-206), as a lookup that is
`none` off the nine known codes. -/
def y_label_mapping (event : String) : Option String :=
  if event = "CME" then some "Number of CMEs"
  else if event = "GST" then some "Average Kp Index"
  else if event = "FLR" then some "Number of Solar Flares"
  else if event = "SEP" then some "Number of Solar Energetic Particles"
  else if event = "IPS" then some "Number of Interplanetary Shocks"
  else if event = "RBE" then some "Number of Radiation Belt Enhancements"
  else if event = "MPC" then some "Number of Magnetopause Crossings"
  else if event = "HSS" then some "Number of High Speed Streams"
  else if event = "notifications" then some "Number of Notifications"
  else none

/-- `y_label = y_label_mapping.get(api_endpoint, "Count")` (app.py line 209):
a `.get` with a silent default. -/
def y_label (event : String) : String :=
  (y_label_mapping event).getD "Count"

/-- The nine event codes offered by the selection dropdown (app.py lines
73-83). -/
def knownEventCodes : List String :=
  ["CME", "GST", "FLR", "SEP", "IPS", "RBE", "MPC", "HSS", "notifications"]

/-- How the date column was resolved (app.py lines 212-225): the mapped field
when it is a column, else the first date/time-like column (with a warning),
else nothing (an error is shown and `df['date']` is all `NaT`). -/
inductive DateFieldResolution where
  | descriptor (f : String)
  | heuristic (f : String)
  | missing
deriving DecidableEq, Repr

/-- The first date/time-like column, in original column order (app.py lines
218-220: the list comprehension followed by `possible_keys[0]`). -/
def resolveFallback (cols : List String) : DateFieldResolution :=
  match cols.filter isDateLike with
  | [] => .missing
  | k :: _ => .heuristic k

/-- Date-field resolution (app.py lines 212-225): `date_field and date_field
in df.columns` selects the mapped field; otherwise the dynamic fallback scan
runs. -/
def resolveDateField (event : String) (cols : List String) :
    DateFieldResolution :=
  match date_field_mapping event with
  | some f => if cols.contains f then .descriptor f else resolveFallback cols
  | none => resolveFallback cols

/-- Look a scalar cell up in a flattened record (a missing cell is `NaN`,
which `pd.to_datetime` coerces to `NaT`). -/
def fieldValue (r : RawRecord) (f : String) : Option String :=
  (r.fields.find? (fun p => p.1 == f)).map Prod.snd

/-- The `df['date']` cell of one record (app.py lines 215/222/225): parse the
resolved column, `NaT` when resolution failed or the cell is missing or
unparseable. -/
def recordDate (r : RawRecord) : DateFieldResolution → Option Date
  | .descriptor f => (fieldValue r f).bind parseDate
  | .heuristic f => (fieldValue r f).bind parseDate
  | .missing => none

/-- Insert a date into a sorted duplicate-free list, keeping it sorted and
duplicate-free. -/
def insertDate (d : Date) : List Date → List Date
  | [] => [d]
  | x :: xs =>
    if Date.ltB d x then d :: x :: xs
    else if d = x then x :: xs
    else x :: insertDate d xs

/-- The distinct dates of a list, sorted ascending — the group keys produced
by `df.groupby('date')` (pandas sorts group keys ascending and drops `NaT`
keys). -/
def sortedUniqueDates (l : List Date) : List Date :=
  l.foldr insertDate []

/-- `df.groupby('date').size()` (app.py lines 230, 264, 278): rows with `NaT`
dates are dropped, the remaining rows are grouped by date, and each group is
reduced to its size; groups come out sorted by date ascending. -/
def groupCountSize (dates : List (Option Date)) : List (Date × Nat) :=
  let valid := dates.filterMap id
  (sortedUniqueDates valid).map
    (fun d => (d, (valid.filter (fun x => x == d)).length))

/-- The tidy rows of the GST branch (app.py lines 246-247): one row per
`allKpIndex` sub-reading, dated by the sub-reading's own `observedTime` and
valued by its own `kpIndex`. -/
def gstTidyRows (readings : List KpReading) : List (Option Date × ℚ) :=
  readings.map (fun k => (parseDate k.observedTime, k.kpIndex))

/-- `df.explode('allKpIndex')` followed by `pd.json_normalize` (app.py lines
245-246): the concatenation of the records' `allKpIndex` lists (a record
without the list contributes no sub-readings). -/
def gstExplodedReadings (records : List RawRecord) : List KpReading :=
  (records.map (fun r => r.allKpIndex.getD [])).flatten

/-- `kp_df.groupby('date').agg({'kpIndex': 'mean'})` (app.py line 248): group
the tidy rows by date (dropping `NaT`) and reduce each group to the
arithmetic mean of its `kpIndex` values, sorted by date ascending. -/
def gstAggregate (readings : List KpReading) : List (Date × ℚ) :=
  let valid := (gstTidyRows readings).filterMap
    (fun r => r.1.map (fun d => (d, r.2)))
  (sortedUniqueDates (valid.map Prod.fst)).map
    (fun d =>
      let vs := (valid.filter (fun p => p.1 == d)).map Prod.snd
      (d, vs.sum / (vs.length : ℚ)))

/-- Severity of a user-visible notice: which Streamlit call emitted it. -/
inductive Sev where
  | error
  | warning
  | success
  | write
deriving DecidableEq, Repr

/-- A user-visible notice: severity, whether it appears in the sidebar (inline
next to the inputs) or in the main page, and its text. Purely presentational
calls (`st.markdown`, `st.subheader`, expanders, `st.json`) are not
modelled. -/
structure Msg where
  sev : Sev
  sidebar : Bool
  text : String
deriving DecidableEq, Repr

/-- Chart kind: which Plotly Express constructor builds the figure. -/
inductive ChartKind where
  | line
  | bar
deriving DecidableEq, Repr

/-- The figure specification handed to the external renderer: the constructor
kind, the x and y columns, and the `labels` dict. -/
structure ChartSpec where
  kind : ChartKind
  x : String
  y : String
  labels : List (String × String)
deriving DecidableEq, Repr

/-- A Python runtime error raised while the script body executes. -/
inductive PyError where
  | nameError (n : String)
deriving DecidableEq, Repr

/-- The script variables that the plotting branches' `labels` dicts read:
`y_label` is assigned at app.py line 209; no variable named `label` is ever
assigned anywhere in the script, although line 238 (the CME branch's `labels`
dict) references one. -/
def plotVars (event : String) : List (String × String) :=
  [("y_label", y_label event)]

/-- Python name resolution for those references: an unresolved name raises
`NameError`. -/
def lookupVar (event n : String) : Option String :=
  ((plotVars event).find? (fun p => p.1 == n)).map Prod.snd

/-- What processing a non-empty JSON list produces: the notices emitted, the
chart handed to the renderer (if the branch got that far), the grouped series
(`df_grouped`, when it was computed), and a Python error if one was raised. -/
structure ProcessOutput where
  messages : List Msg
  chart : Option ChartSpec
  series : List (Date × ℚ)
  pyError : Option PyError
deriving DecidableEq, Repr

/-- Cast a count series to the common series value type. -/
def countToQ (l : List (Date × Nat)) : List (Date × ℚ) :=
  l.map (fun p => (p.1, (p.2 : ℚ)))

/-- The notices emitted by date-field resolution (app.py lines 221 and 224):
a warning when the fallback column is used, an error when no date-like column
exists (the script still continues either way). -/
def resolutionMsgs : DateFieldResolution → List Msg
  | .descriptor _ => []
  | .heuristic f =>
    [⟨.warning, false, "Using \x27" ++ f ++ "\x27 as the date field"⟩]
  | .missing =>
    [⟨.error, false, "No suitable date field found in the data"⟩]

/-- The per-event plotting branches (app.py lines 178-288) applied to a
non-empty JSON list: resolve the date column over the normalized DataFrame,
then branch on the event code.

* CME (lines 228-240): group by date with a size reduction, then build
  `px.line`; evaluating its `labels` dict references the name `label`
  (line 238), which the script never assigns, so a `NameError` is raised
  before the figure is produced.
* GST (lines 242-260): when the `allKpIndex` column exists, explode it,
  re-normalize, date each sub-reading by its own `observedTime`, group by
  date with a mean reduction, and build `px.line`; otherwise show an error
  and build nothing.
* notifications (lines 262-274) and every other code (lines 276-288): group
  by date with a size reduction and build `px.bar`. -/
def processRecords (event : String) (records : List RawRecord) :
    ProcessOutput :=
  let cols := columns records
  let res := resolveDateField event cols
  let resMsgs := resolutionMsgs res
  let dates := records.map (fun r => recordDate r res)
  if event = "CME" then
    let grouped := groupCountSize dates
    match lookupVar event "label" with
    | none =>
      ⟨resMsgs, none, countToQ grouped, some (.nameError "label")⟩
    | some v =>
      ⟨resMsgs,
       some ⟨.line, "date", "count", [("date", "Date"), ("count", v)]⟩,
       countToQ grouped, none⟩
  else if event = "GST" then
    if records.any (fun r => r.allKpIndex.isSome) then
      let grouped := gstAggregate (gstExplodedReadings records)
      match lookupVar event "y_label" with
      | none =>
        ⟨resMsgs, none, grouped, some (.nameError "y_label")⟩
      | some v =>
        ⟨resMsgs,
         some ⟨.line, "date", "kpIndex", [("date", "Date"), ("kpIndex", v)]⟩,
         grouped, none⟩
    else
      ⟨resMsgs ++ [⟨.error, false, "No \x27allKpIndex\x27 data available to plot."⟩],
       none, [], none⟩
  else
    let grouped := groupCountSize dates
    match lookupVar event "y_label" with
    | none =>
      ⟨resMsgs, none, countToQ grouped, some (.nameError "y_label")⟩
    | some v =>
      ⟨resMsgs,
       some ⟨.bar, "date", "count", [("date", "Date"), ("count", v)]⟩,
       countToQ grouped, none⟩

/-- What the upstream call produces, as seen by the script: a non-200 response
(`fetch_space_weather` shows an error and returns `None`), a JSON array, or
some other JSON value whose only relevant trait is Python truthiness. -/
inductive ApiData where
  | failure (status : Nat) (body : String)
  | records (rs : List RawRecord)
  | other (truthy : Bool)
deriving DecidableEq, Repr

/-- Python truthiness of `data` at app.py line 171: `None` is falsy, a list is
truthy iff non-empty. -/
def ApiData.truthyB : ApiData → Bool
  | .failure _ _ => false
  | .records rs => !rs.isEmpty
  | .other t => t

/-- The error text of app.py line 160. -/
def fetchErrorText (status : Nat) (body : String) : String :=
  "Error fetching data: " ++ toString status ++ " - " ++ body

/-- The inputs of one run of the script body. -/
structure AppInput where
  apiKey : String
  event : String
  startDate : Date
  endDate : Date
  fetchClicked : Bool
  apiData : ApiData
deriving Repr

/-- The observable outcome of one run of the script body. -/
structure RunResult where
  messages : List Msg
  fetchPerformed : Bool
  queryParams : Option (List (String × PVal))
  chart : Option ChartSpec
  series : List (Date × ℚ)
  pyError : Option PyError
deriving DecidableEq, Repr

/-- One run of the script body (app.py lines 101-294):

* lines 101-103: `start_date > end_date` only shows a sidebar error — nothing
  is set that later code consults;
* lines 164-169: nothing happens unless Fetch Data was clicked; an empty API
  key shows an error and skips the fetch; otherwise the network call is
  performed with the parameters of `fetch_space_weather`;
* lines 157-161: a non-200 response shows an error and yields `None`;
* line 171: `if data:` — a falsy result (`None`, the empty list, falsy JSON)
  skips the whole processing block, and nothing else is emitted (the `else`
  at line 293 belongs to the `isinstance(data, list)` check at line 179, not
  to `if data:`);
* lines 179-292: a truthy list is processed by the plotting branches;
* lines 293-294: truthy non-list JSON gets the "No data available" notice. -/
def appRun (inp : AppInput) : RunResult :=
  let dateMsgs : List Msg :=
    if Date.ltB inp.endDate inp.startDate then
      [⟨.error, true, "Error: End date must fall after start date."⟩]
    else []
  if !inp.fetchClicked then
    ⟨dateMsgs, false, none, none, [], none⟩
  else if inp.apiKey = "" then
    ⟨dateMsgs ++ [⟨.error, false, "Please enter your NASA API Key to proceed."⟩],
     false, none, none, [], none⟩
  else
    let params := fetchParams inp.event inp.startDate inp.endDate inp.apiKey
    let fetchMsgs : List Msg :=
      match inp.apiData with
      | .failure s b => [⟨.error, false, fetchErrorText s b⟩]
      | _ => []
    if !inp.apiData.truthyB then
      ⟨dateMsgs ++ fetchMsgs, true, some params, none, [], none⟩
    else
      match inp.apiData with
      | .records rs =>
        let out := processRecords inp.event rs
        ⟨dateMsgs ++ fetchMsgs ++ [⟨.success, false, "Data fetched successfully!"⟩]
           ++ out.messages,
         true, some params, out.chart, out.series, out.pyError⟩
      | _ =>
        ⟨dateMsgs ++ fetchMsgs ++ [⟨.success, false, "Data fetched successfully!"⟩,
           ⟨.write, false, "No data available for the selected parameters."⟩],
         true, some params, none, [], none⟩

/-! ## Concrete inputs used by witnesses and counterexamples -/

/-- A CME record carrying only its `startTime` column. -/
def cmeRecord (t : String) : RawRecord :=
  ⟨[("startTime", t)], none⟩

/-- End-to-end scenario 1: five CME records on three distinct days
(two, one, two). -/
def c2Input : AppInput :=
  ⟨"DEMO_KEY", "CME", ⟨2024, 3, 1⟩, ⟨2024, 3, 7⟩, true,
   .records [cmeRecord "2024-03-01T06:00Z", cmeRecord "2024-03-01T12:00Z",
             cmeRecord "2024-03-02T01:00Z", cmeRecord "2024-03-03T02:00Z",
             cmeRecord "2024-03-03T03:00Z"]⟩

/-- One GST record whose parent `startTime` falls on 2023-12-31 but whose two
`allKpIndex` sub-readings are both observed on 2024-01-01. -/
def gstRecord : RawRecord :=
  ⟨[("startTime", "2023-12-31T23:00Z")],
   some [⟨"2024-01-01T00:00Z", 3⟩, ⟨"2024-01-01T06:00Z", 5⟩]⟩

/-- End-to-end scenario 2: one GST record with sub-readings 3 and 5 on the
same day. -/
def c4Input : AppInput :=
  ⟨"DEMO_KEY", "GST", ⟨2024, 1, 1⟩, ⟨2024, 1, 7⟩, true, .records [gstRecord]⟩

/-- A run with `startDate > endDate`, the Fetch Data button clicked and a
non-empty API key. -/
def c1Input : AppInput :=
  ⟨"DEMO_KEY", "FLR", ⟨2024, 5, 10⟩, ⟨2024, 5, 1⟩, true, .records []⟩

/-- A run whose single record has no date-like or time-like column at all. -/
def c5Input : AppInput :=
  ⟨"DEMO_KEY", "FLR", ⟨2024, 1, 1⟩, ⟨2024, 1, 31⟩, true,
   .records [⟨[("foo", "x")], none⟩]⟩

/-- A run where the upstream API returns the empty JSON array. -/
def c6Input : AppInput :=
  ⟨"DEMO_KEY", "CME", ⟨2024, 1, 1⟩, ⟨2024, 1, 31⟩, true, .records []⟩

/-- A GST run whose single record has no `allKpIndex` list. -/
def c7Input : AppInput :=
  ⟨"DEMO_KEY", "GST", ⟨2024, 1, 1⟩, ⟨2024, 1, 31⟩, true,
   .records [⟨[("startTime", "2024-01-05T00:00Z")], none⟩]⟩

/-- A run with an event code outside the nine known ones. -/
def c8Input : AppInput :=
  ⟨"DEMO_KEY", "XXX", ⟨2024, 1, 1⟩, ⟨2024, 1, 31⟩, true,
   .records [⟨[("eventTime", "2024-01-05T00:00Z")], none⟩]⟩

/-- A notifications run with three records on two days. -/
def c9Input : AppInput :=
  ⟨"DEMO_KEY", "notifications", ⟨2024, 2, 1⟩, ⟨2024, 2, 29⟩, true,
   .records [⟨[("messageIssueTime", "2024-02-01T10:00Z")], none⟩,
             ⟨[("messageIssueTime", "2024-02-01T11:00Z")], none⟩,
             ⟨[("messageIssueTime", "2024-02-02T09:00Z")], none⟩]⟩

/-! ## Helper lemmas -/

theorem mem_insertDate {a d : Date} {l : List Date} (h : a ∈ insertDate d l) :
    a = d ∨ a ∈ l := by
  induction l with
  | nil => simp [insertDate] at h; exact Or.inl h
  | cons x xs ih =>
    rw [insertDate] at h
    split at h
    · simpa using h
    · split at h
      · exact Or.inr h
      · rcases List.mem_cons.mp h with h1 | h1
        · exact Or.inr (h1 ▸ List.mem_cons_self x xs)
        · rcases ih h1 with h2 | h2
          · exact Or.inl h2
          · exact Or.inr (List.mem_cons_of_mem x h2)

theorem mem_sortedUniqueDates {a : Date} {l : List Date}
    (h : a ∈ sortedUniqueDates l) : a ∈ l := by
  induction l with
  | nil => simp [sortedUniqueDates] at h
  | cons x xs ih =>
    rw [sortedUniqueDates, List.foldr_cons] at h
    rcases mem_insertDate h with h1 | h1
    · exact h1 ▸ List.mem_cons_self x xs
    · exact List.mem_cons_of_mem x (ih h1)

/-- Every group produced by the size reduction is non-empty: its key occurs
in the grouped rows. -/
theorem groupCountSize_one_le {dates : List (Option Date)} {p : Date × Nat}
    (hp : p ∈ groupCountSize dates) : 1 ≤ p.2 := by
  dsimp [groupCountSize] at hp
  rcases List.mem_map.mp hp with ⟨d, hd, rfl⟩
  have hmem : d ∈ dates.filterMap id := mem_sortedUniqueDates hd
  have hin : d ∈ (dates.filterMap id).filter (fun x => x == d) :=
    List.mem_filter.mpr ⟨hmem, by simp⟩
  simpa [Nat.succ_le] using List.length_pos.mpr (List.ne_nil_of_mem hin)

/-- The arithmetic mean of a non-empty list of rationals lies between any
lower bound and any upper bound of its elements. -/
theorem mean_bounds {vs : List ℚ} (hne : vs ≠ []) {lo hi : ℚ}
    (h : ∀ x ∈ vs, lo ≤ x ∧ x ≤ hi) :
    lo ≤ vs.sum / (vs.length : ℚ) ∧ vs.sum / (vs.length : ℚ) ≤ hi := by
  have hlen : 0 < (vs.length : ℚ) := by
    exact_mod_cast List.length_pos.mpr hne
  have hsum_le : vs.sum ≤ (vs.length : ℚ) * hi := by
    have := List.sum_le_card_nsmul vs hi (fun x hx => (h x hx).2)
    simpa [nsmul_eq_mul] using this
  have hle_sum : (vs.length : ℚ) * lo ≤ vs.sum := by
    have := List.card_nsmul_le_sum vs lo (fun x hx => (h x hx).1)
    simpa [nsmul_eq_mul] using this
  constructor
  · rw [le_div_iff₀ hlen]
    linarith
  · rw [div_le_iff₀ hlen]
    linarith

/-- Core of the GST mean invariant: every point of the mean aggregation is
bounded by any pair of bounds that holds for the `kpIndex` of each sub-reading
whose `observedTime` falls on the point's date. -/
theorem gstAggregate_mem_bounds {readings : List KpReading} {p : Date × ℚ}
    (hp : p ∈ gstAggregate readings) {lo hi : ℚ}
    (hb : ∀ k ∈ readings, parseDate k.observedTime = some p.1 →
            lo ≤ k.kpIndex ∧ k.kpIndex ≤ hi) :
    lo ≤ p.2 ∧ p.2 ≤ hi := by
  dsimp only [gstAggregate] at hp
  rcases List.mem_map.mp hp with ⟨d, hd, hpd⟩
  subst hpd
  have hdm : d ∈ ((gstTidyRows readings).filterMap
      (fun r => r.1.map (fun x => (x, r.2)))).map Prod.fst :=
    mem_sortedUniqueDates hd
  have hne : ((gstTidyRows readings).filterMap
        (fun r => r.1.map (fun x => (x, r.2)))).filter
          (fun q => q.1 == d) ≠ [] := by
    rcases List.mem_map.mp hdm with ⟨q, hq, hq1⟩
    exact List.ne_nil_of_mem
      (List.mem_filter.mpr ⟨hq, by simp [hq1]⟩)
  have hvs : ∀ x ∈ (((gstTidyRows readings).filterMap
        (fun r => r.1.map (fun x => (x, r.2)))).filter
          (fun q => q.1 == d)).map Prod.snd,
      lo ≤ x ∧ x ≤ hi := by
    intro x hx
    rcases List.mem_map.mp hx with ⟨q, hq, hq2⟩
    have hq' := List.mem_filter.mp hq
    rcases List.mem_filterMap.mp hq'.1 with ⟨r, hr, hrq⟩
    rcases List.mem_map.mp hr with ⟨k, hk, hkr⟩
    subst hkr
    rcases Option.map_eq_some'.mp hrq with ⟨x0, hx0, hx0q⟩
    subst hx0q
    have hq1 : x0 = d := by simpa using hq'.2
    subst hq1
    subst hq2
    simpa using hb k hk (by simpa using hx0)
  have hne' : (((gstTidyRows readings).filterMap
        (fun r => r.1.map (fun x => (x, r.2)))).filter
          (fun q => q.1 == d)).map Prod.snd ≠ [] := by
    simpa using hne
  simpa using mean_bounds hne' hvs

/-- Evaluation of the GST mean aggregation on one date with sub-readings 3
and 5: the mean is 4. -/
theorem gstAggregate_pair :
    gstAggregate [⟨"2024-01-01T00:00Z", 3⟩, ⟨"2024-01-01T06:00Z", 5⟩]
      = [(⟨2024, 1, 1⟩, 4)] := by
  have h : gstAggregate [⟨"2024-01-01T00:00Z", 3⟩, ⟨"2024-01-01T06:00Z", 5⟩]
      = [(⟨2024, 1, 1⟩, (([3, 5] : List ℚ).sum / ((2 : Nat) : ℚ)))] := rfl
  rw [h]
  norm_num

/-- The plotting branches can resolve `y_label` (it is assigned at app.py
line 209), whatever the event code. -/
theorem lookupVar_y_label (event : String) :
    lookupVar event "y_label" = some (y_label event) := rfl

/-- No branch can resolve `label`: the script never assigns that name. -/
theorem lookupVar_label (event : String) :
    lookupVar event "label" = none := rfl

/-- For every event except GST, the plotting branch aggregates with the size
reduction over the resolved date column. -/
theorem processRecords_series_count (event : String) (records : List RawRecord)
    (hev : event ≠ "GST") :
    (processRecords event records).series =
      countToQ (groupCountSize (records.map
        (fun r => recordDate r (resolveDateField event (columns records))))) := by
  by_cases h1 : event = "CME"
  · subst h1; rfl
  · simp only [processRecords, if_neg h1, if_neg hev, lookupVar_y_label]

/-- When no record carries the `allKpIndex` list, the GST branch emits the
error notice, produces no chart, no series and no Python error. -/
theorem processRecords_gst_noKp (records : List RawRecord)
    (h : ∀ r ∈ records, r.allKpIndex = none) :
    processRecords "GST" records =
      ⟨resolutionMsgs (resolveDateField "GST" (columns records)) ++
         [⟨.error, false, "No \x27allKpIndex\x27 data available to plot."⟩],
       none, [], none⟩ := by
  have hany : records.any (fun r => r.allKpIndex.isSome) = false := by
    simp only [List.any_eq_false]
    intro r hr
    simp [h r hr]
  simp [processRecords, hany]

/-- For every event code other than CME and GST, the branch hands a bar chart
labelled with the (possibly defaulted) `y_label` to the renderer and raises
nothing. -/
theorem processRecords_bar (event : String) (records : List RawRecord)
    (h1 : event ≠ "CME") (h2 : event ≠ "GST") :
    (processRecords event records).chart =
      some ⟨.bar, "date", "count", [("date", "Date"), ("count", y_label event)]⟩ ∧
    (processRecords event records).pyError = none := by
  simp [processRecords, if_neg h1, if_neg h2, lookupVar_y_label]

/-- The series of a run is empty unless the upstream data was a JSON list, in
which case it is whatever the plotting branches computed. -/
theorem appRun_series_cases (inp : AppInput) :
    (appRun inp).series = [] ∨
    ∃ rs, inp.apiData = .records rs ∧
      (appRun inp).series = (processRecords inp.event rs).series := by
  dsimp only [appRun]
  split
  · exact Or.inl rfl
  · split
    · exact Or.inl rfl
    · split
      · exact Or.inl rfl
      · split
        · next rs heq => exact Or.inr ⟨rs, heq, rfl⟩
        · exact Or.inl rfl

/-- Once the button is clicked with a non-empty key and the date range is
inverted, the inline sidebar error is among the run's messages and the fetch
is nevertheless performed. -/
theorem appRun_fetches (inp : AppInput) (hclick : inp.fetchClicked = true)
    (hkey : ¬ inp.apiKey = "")
    (hrange : Date.ltB inp.endDate inp.startDate = true) :
    (appRun inp).fetchPerformed = true ∧
    (⟨.error, true, "Error: End date must fall after start date."⟩ : Msg)
      ∈ (appRun inp).messages := by
  dsimp only [appRun]
  rw [hclick, hrange]
  simp only [if_neg hkey, Bool.not_true, Bool.false_eq_true, if_false, if_true]
  constructor
  · split
    · rfl
    · split <;> rfl
  · split
    · simp
    · split <;> simp

/-! ## Claims -/

/-- C1 counterexample: at a concrete run with `startDate > endDate`, the
Fetch Data button clicked and a non-empty API key, the network call is still
performed — refuting the claim that an inverted date range blocks the fetch
before any network call. -/
theorem c1_fetch_not_blocked_counterexample :
    Date.ltB c1Input.endDate c1Input.startDate = true ∧
    ¬ (appRun c1Input).fetchPerformed = false := by decide

/-- C1 (amended): for every run with `startDate > endDate`, the invalid-range
error is shown inline next to the date inputs in the sidebar, but it does not
block the pipeline: whenever the button is clicked with a non-empty API key,
the network call is still performed. -/
theorem c1_invalid_range_inline_error_but_fetches (inp : AppInput)
    (hrange : Date.ltB inp.endDate inp.startDate = true)
    (hclick : inp.fetchClicked = true) (hkey : ¬ inp.apiKey = "") :
    (⟨.error, true, "Error: End date must fall after start date."⟩ : Msg)
        ∈ (appRun inp).messages ∧
    (appRun inp).fetchPerformed = true := by
  have h := appRun_fetches inp hclick hkey hrange
  exact ⟨h.2, h.1⟩

/-- Witness for the amended C1 theorem at the concrete inverted-range run. -/
theorem c1_invalid_range_witness :
    (⟨.error, true, "Error: End date must fall after start date."⟩ : Msg)
        ∈ (appRun c1Input).messages ∧
    (appRun c1Input).fetchPerformed = true :=
  c1_invalid_range_inline_error_but_fetches c1Input (by decide) (by decide)
    (by decide)

/-- C2: on the five-record CME scenario the grouped series is exactly
[(day1,2), (day2,1), (day3,2)] in ascending date order, but no Line chart is
produced: the branch raises `NameError` on the unassigned name `label`
(app.py line 238) while building the `px.line` labels dict. -/
theorem c2_cme_series_computed_but_name_error :
    (appRun c2Input).series =
      [(⟨2024, 3, 1⟩, 2), (⟨2024, 3, 2⟩, 1), (⟨2024, 3, 3⟩, 2)] ∧
    (appRun c2Input).pyError = some (.nameError "label") ∧
    (appRun c2Input).chart = none := by decide

/-- C3 counterexample: the built parameter set names the API key `api_key`,
not `apiKey`. -/
theorem c3_api_key_name_counterexample :
    "apiKey" ∉ (fetchParams "FLR" ⟨2024, 1, 1⟩ ⟨2024, 1, 31⟩ "k").map Prod.fst ∧
    ("api_key", PVal.str "k") ∈ fetchParams "FLR" ⟨2024, 1, 1⟩ ⟨2024, 1, 31⟩ "k" := by
  decide

/-- C3 (amended): for every event code, date range and key, the parameter set
carries `startDate` and `endDate` as ISO 8601 dates without a time component
and the API key under the name `api_key`; CME adds exactly its five filter
parameters, notifications adds exactly `type=all`, and every other code adds
nothing. -/
theorem c3_query_params (code : String) (s e : Date) (key : String) :
    (fetchParams code s e key).lookup "startDate"
        = some (PVal.str s.strftimeYMD) ∧
    (fetchParams code s e key).lookup "endDate"
        = some (PVal.str e.strftimeYMD) ∧
    (fetchParams code s e key).lookup "api_key" = some (PVal.str key) ∧
    (code = "CME" → fetchParams code s e key =
      [("startDate", PVal.str s.strftimeYMD),
       ("endDate", PVal.str e.strftimeYMD),
       ("api_key", PVal.str key),
       ("mostAccurateOnly", PVal.str "true"),
       ("completeEntryOnly", PVal.str "true"),
       ("speed", PVal.num 500), ("halfAngle", PVal.num 30),
       ("catalog", PVal.str "ALL")]) ∧
    (code = "notifications" → fetchParams code s e key =
      [("startDate", PVal.str s.strftimeYMD),
       ("endDate", PVal.str e.strftimeYMD),
       ("api_key", PVal.str key), ("type", PVal.str "all")]) ∧
    (code ≠ "CME" → code ≠ "notifications" → fetchParams code s e key =
      [("startDate", PVal.str s.strftimeYMD),
       ("endDate", PVal.str e.strftimeYMD),
       ("api_key", PVal.str key)]) := by
  by_cases h1 : code = "CME"
  · subst h1
    exact ⟨rfl, rfl, rfl, fun _ => rfl, fun h => absurd h (by decide),
           fun h _ => absurd rfl h⟩
  · by_cases h2 : code = "notifications"
    · subst h2
      exact ⟨rfl, rfl, rfl, fun h => absurd h (by decide), fun _ => rfl,
             fun _ h => absurd rfl h⟩
    · have hfp : fetchParams code s e key =
          [("startDate", PVal.str s.strftimeYMD),
           ("endDate", PVal.str e.strftimeYMD),
           ("api_key", PVal.str key)] := by
        simp [fetchParams, h1, h2]
      refine ⟨?_, ?_, ?_, fun h => absurd h h1, fun h => absurd h h2,
              fun _ _ => hfp⟩ <;> rw [hfp] <;> rfl

/-- Witness for the amended C3 theorem at a non-CME, non-notifications
code. -/
theorem c3_query_params_witness :
    fetchParams "SEP" ⟨2024, 1, 1⟩ ⟨2024, 1, 2⟩ "DEMO_KEY" =
      [("startDate", PVal.str "2024-01-01"),
       ("endDate", PVal.str "2024-01-02"),
       ("api_key", PVal.str "DEMO_KEY")] :=
  (c3_query_params "SEP" ⟨2024, 1, 1⟩ ⟨2024, 1, 2⟩ "DEMO_KEY").2.2.2.2.2
    (by decide) (by decide)

/-- C4: GST normalization emits one tidy row per `allKpIndex` sub-reading,
keyed by the sub-reading's own `observedTime` and valued by its own
`kpIndex`; aggregation is the arithmetic mean per date; on the concrete
scenario (sub-readings 3 and 5 on day d1, parent record dated a day earlier)
the run's series is [(d1, 4)]. -/
theorem c4_gst_normalize_and_mean :
    (∀ readings : List KpReading,
        (gstTidyRows readings).length = readings.length) ∧
    (∀ readings : List KpReading, ∀ k ∈ readings,
        (parseDate k.observedTime, k.kpIndex) ∈ gstTidyRows readings) ∧
    (appRun c4Input).series = [(⟨2024, 1, 1⟩, 4)] := by
  refine ⟨fun readings => by simp [gstTidyRows],
          fun readings k hk => List.mem_map_of_mem _ hk, ?_⟩
  have h : (appRun c4Input).series
      = gstAggregate [⟨"2024-01-01T00:00Z", 3⟩, ⟨"2024-01-01T06:00Z", 5⟩] := rfl
  rw [h, gstAggregate_pair]

/-- Witness for C4 at the first concrete sub-reading. -/
theorem c4_gst_normalize_witness :
    (parseDate "2024-01-01T00:00Z", (3 : ℚ))
      ∈ gstTidyRows [⟨"2024-01-01T00:00Z", 3⟩, ⟨"2024-01-01T06:00Z", 5⟩] :=
  c4_gst_normalize_and_mean.2.1 [⟨"2024-01-01T00:00Z", 3⟩, ⟨"2024-01-01T06:00Z", 5⟩]
    ⟨"2024-01-01T00:00Z", 3⟩ (by simp)

/-- C5 counterexample: on a record set with no date-like or time-like column,
the no-date-field condition is reported through an error notice (`st.error`),
no warning-severity notice is emitted anywhere in the run, and the pipeline
still produces a chart — refuting the claim that the condition is reported as
a warning. -/
theorem c5_no_date_field_severity_counterexample :
    (⟨.error, false, "No suitable date field found in the data"⟩ : Msg)
        ∈ (appRun c5Input).messages ∧
    (appRun c5Input).messages.all (fun m => m.sev != .warning) = true ∧
    (appRun c5Input).chart.isSome = true := by decide

/-- C5 (amended): the date source is the mapped field when it is among the
flattened columns; otherwise the first date/time-like column in original key
order; otherwise every row's date is undefined and a non-fatal error notice
(`st.error`, not a warning) is emitted while the pipeline continues. -/
theorem c5_date_field_resolution (event : String) (cols : List String)
    (records : List RawRecord) :
    (∀ f, date_field_mapping event = some f → cols.contains f = true →
        resolveDateField event cols = .descriptor f) ∧
    ((∀ f, date_field_mapping event = some f → cols.contains f = false) →
        ∀ k ks, cols.filter isDateLike = k :: ks →
          resolveDateField event cols = .heuristic k) ∧
    ((∀ f, date_field_mapping event = some f → cols.contains f = false) →
        cols.filter isDateLike = [] → resolveDateField event cols = .missing) ∧
    (∀ r : RawRecord, recordDate r .missing = none) ∧
    (resolveDateField event (columns records) = .missing →
        (⟨.error, false, "No suitable date field found in the data"⟩ : Msg)
            ∈ (processRecords event records).messages) := by
  refine ⟨?_, ?_, ?_, fun r => rfl, ?_⟩
  · intro f hf hc
    have hc2 : f ∈ cols := by simpa using hc
    simp [resolveDateField, hf, hc2]
  · intro hnone k ks hk
    cases hmap : date_field_mapping event with
    | none => simp [resolveDateField, hmap, resolveFallback, hk]
    | some f =>
      have hf2 : f ∉ cols := by simpa using hnone f hmap
      simp [resolveDateField, hmap, hf2, resolveFallback, hk]
  · intro hnone hfil
    cases hmap : date_field_mapping event with
    | none => simp [resolveDateField, hmap, resolveFallback, hfil]
    | some f =>
      have hf2 : f ∉ cols := by simpa using hnone f hmap
      simp [resolveDateField, hmap, hf2, resolveFallback, hfil]
  · intro hres
    by_cases h1 : event = "CME"
    · subst h1
      simp only [processRecords, if_pos rfl, lookupVar_label, hres]
      simp [resolutionMsgs]
    · by_cases h2 : event = "GST"
      · subst h2
        by_cases hany : records.any (fun r => r.allKpIndex.isSome) = true
        · simp [processRecords, hres, hany, lookupVar_y_label, resolutionMsgs]
        · simp [processRecords, hres, hany, lookupVar_y_label, resolutionMsgs]
      · simp only [processRecords, if_neg h1, if_neg h2, lookupVar_y_label, hres]
        simp [resolutionMsgs]

/-- Witness for the amended C5 theorem on a record set without any date-like
column. -/
theorem c5_date_field_resolution_witness :
    (⟨.error, false, "No suitable date field found in the data"⟩ : Msg)
        ∈ (processRecords "FLR" [⟨[("foo", "x")], none⟩]).messages :=
  (c5_date_field_resolution "FLR" [] [⟨[("foo", "x")], none⟩]).2.2.2.2 (by decide)

/-- C6: when the upstream API returns the empty JSON array, the series is
empty and rendering is skipped, but no notice of any kind is shown — in
particular no "no data" message: `[]` is falsy at `if data:` (app.py line
171), and the `else` carrying the no-data write (lines 293-294) belongs to
the `isinstance(data, list)` check, unreachable for a falsy response. -/
theorem c6_empty_array_emits_nothing :
    (appRun c6Input).series = [] ∧ (appRun c6Input).chart = none ∧
    (appRun c6Input).messages = [] ∧
    (appRun c6Input).fetchPerformed = true := by decide

/-- C7 counterexample: a GST run whose record lacks `allKpIndex` produces no
chart at all, and the condition is surfaced through an error notice with no
warning-severity notice anywhere — refuting the claim that a warning is shown
and a (possibly partial) chart is still produced. -/
theorem c7_gst_no_chart_counterexample :
    (appRun c7Input).chart = none ∧
    (⟨.error, false, "No \x27allKpIndex\x27 data available to plot."⟩ : Msg)
        ∈ (appRun c7Input).messages ∧
    (appRun c7Input).messages.all (fun m => m.sev != .warning) = true := by decide

/-- C7 (amended): when no GST record carries the nested `allKpIndex` list,
zero tidy rows are emitted, the condition is surfaced through an error notice
(not a warning), and the run does not crash — but no chart is produced at
all. -/
theorem c7_gst_missing_kp (records : List RawRecord)
    (h : ∀ r ∈ records, r.allKpIndex = none) :
    (processRecords "GST" records).series = [] ∧
    (processRecords "GST" records).chart = none ∧
    (⟨.error, false, "No \x27allKpIndex\x27 data available to plot."⟩ : Msg)
        ∈ (processRecords "GST" records).messages ∧
    (processRecords "GST" records).pyError = none := by
  rw [processRecords_gst_noKp records h]
  refine ⟨rfl, rfl, ?_, rfl⟩
  simp

/-- Witness for the amended C7 theorem at a concrete GST record without the
nested list. -/
theorem c7_gst_missing_kp_witness :
    (processRecords "GST" [⟨[("startTime", "2024-01-05T00:00Z")], none⟩]).chart
      = none :=
  (c7_gst_missing_kp [⟨[("startTime", "2024-01-05T00:00Z")], none⟩]
    (by simp)).2.1

/-- C8 counterexample: for the unknown code "XXX" the lookups silently
default — y-label "Count", no date field — and the run completes the default
bar branch without any failure, refuting the claimed `UnknownEventKind`
failure. -/
theorem c8_unknown_code_counterexample :
    y_label "XXX" = "Count" ∧ date_field_mapping "XXX" = none ∧
    (appRun c8Input).pyError = none ∧
    (appRun c8Input).chart =
      some ⟨.bar, "date", "count", [("date", "Date"), ("count", "Count")]⟩ := by
  decide

/-- C8 (amended): the catalog lookups are defined (non-default) over exactly
the nine known codes; for any other code they silently fall back to their
defaults ("Count" and no date field) and the default bar branch still renders
without any failure. -/
theorem c8_catalog_lookup_totality :
    (∀ c ∈ knownEventCodes,
        (date_field_mapping c).isSome = true ∧
        (y_label_mapping c).isSome = true) ∧
    (∀ code, code ∉ knownEventCodes →
        date_field_mapping code = none ∧ y_label_mapping code = none ∧
        y_label code = "Count" ∧
        ∀ records, (processRecords code records).chart =
            some ⟨.bar, "date", "count", [("date", "Date"), ("count", "Count")]⟩ ∧
          (processRecords code records).pyError = none) := by
  constructor
  · decide
  · intro code hcode
    simp only [knownEventCodes, List.mem_cons, List.not_mem_nil, or_false,
               not_or] at hcode
    obtain ⟨h1, h2, h3, h4, h5, h6, h7, h8, h9⟩ := hcode
    have hdm : date_field_mapping code = none := by
      simp [date_field_mapping, h1, h2, h3, h4, h5, h6, h7, h8, h9]
    have hym : y_label_mapping code = none := by
      simp [y_label_mapping, h1, h2, h3, h4, h5, h6, h7, h8, h9]
    have hyl : y_label code = "Count" := by simp [y_label, hym]
    refine ⟨hdm, hym, hyl, fun records => ?_⟩
    have hb := processRecords_bar code records h1 h2
    rw [hyl] at hb
    exact hb

/-- Witness for the amended C8 theorem: a known code resolves, an unknown
code defaults and still gets a bar chart. -/
theorem c8_catalog_lookup_witness :
    ((date_field_mapping "CME").isSome = true ∧
      (y_label_mapping "CME").isSome = true) ∧
    (date_field_mapping "GOES" = none ∧ y_label_mapping "GOES" = none ∧
      y_label "GOES" = "Count") ∧
    (processRecords "GOES" []).chart =
      some ⟨.bar, "date", "count", [("date", "Date"), ("count", "Count")]⟩ :=
  ⟨c8_catalog_lookup_totality.1 "CME" (by decide),
   ⟨(c8_catalog_lookup_totality.2 "GOES" (by decide)).1,
    (c8_catalog_lookup_totality.2 "GOES" (by decide)).2.1,
    (c8_catalog_lookup_totality.2 "GOES" (by decide)).2.2.1⟩,
   ((c8_catalog_lookup_totality.2 "GOES" (by decide)).2.2.2 []).1⟩

/-- C9: for every run whose event uses the count reduction (every code but
GST), each point of the aggregated series carries a positive integer count;
a zero value never appears, since groups are formed only from rows actually
present. -/
theorem c9_count_series_positive (inp : AppInput) (hev : inp.event ≠ "GST") :
    ∀ p ∈ (appRun inp).series, ∃ n : Nat, p.2 = (n : ℚ) ∧ 1 ≤ n := by
  intro p hp
  rcases appRun_series_cases inp with h | ⟨rs, _, h⟩
  · rw [h] at hp
    simp at hp
  · rw [h, processRecords_series_count inp.event rs hev] at hp
    dsimp only [countToQ] at hp
    rcases List.mem_map.mp hp with ⟨q, hq, hpq⟩
    subst hpq
    exact ⟨q.2, rfl, groupCountSize_one_le hq⟩

/-- Witness for C9 at a concrete notifications run with two days of
records. -/
theorem c9_count_series_witness :
    ∃ n : Nat, ((⟨2024, 2, 1⟩, (2 : ℚ)) : Date × ℚ).2 = (n : ℚ) ∧ 1 ≤ n :=
  c9_count_series_positive c9Input (by decide) (⟨2024, 2, 1⟩, (2 : ℚ))
    (by decide)

/-- C10: every point of the GST mean aggregation lies within any bounds
satisfied by the `kpIndex` of all sub-readings observed on that point's date;
in particular, when every sub-reading's `kpIndex` is within [0, 9], every
point of the series is within [0, 9]. -/
theorem c10_gst_mean_bounded (readings : List KpReading) :
    (∀ p ∈ gstAggregate readings, ∀ lo hi : ℚ,
        (∀ k ∈ readings, parseDate k.observedTime = some p.1 →
            lo ≤ k.kpIndex ∧ k.kpIndex ≤ hi) →
        lo ≤ p.2 ∧ p.2 ≤ hi) ∧
    ((∀ k ∈ readings, 0 ≤ k.kpIndex ∧ k.kpIndex ≤ 9) →
        ∀ p ∈ gstAggregate readings, 0 ≤ p.2 ∧ p.2 ≤ 9) := by
  constructor
  · intro p hp lo hi hb
    exact gstAggregate_mem_bounds hp hb
  · intro h0 p hp
    exact gstAggregate_mem_bounds hp (fun k hk _ => h0 k hk)

/-- Witness for C10 at the concrete two-sub-reading aggregation. -/
theorem c10_gst_mean_bounded_witness :
    (0 : ℚ) ≤ ((⟨2024, 1, 1⟩, (4 : ℚ)) : Date × ℚ).2 ∧
    ((⟨2024, 1, 1⟩, (4 : ℚ)) : Date × ℚ).2 ≤ 9 :=
  (c10_gst_mean_bounded [⟨"2024-01-01T00:00Z", 3⟩, ⟨"2024-01-01T06:00Z", 5⟩]).2
    (by intro k hk; simp only [List.mem_cons, List.not_mem_nil, or_false] at hk
        rcases hk with rfl | rfl <;> norm_num)
    (⟨2024, 1, 1⟩, (4 : ℚ))
    (by rw [gstAggregate_pair]; exact List.mem_singleton.mpr rfl)

end SpaceWeather
